import Mathlib

/-!
Verification of the execution-gateway core of the claude-agent-sdk-cloudflare
repository: a shallow embedding in Lean 4 of the credential provisioner,
auth-mode selector, process launcher, lifecycle monitor and result aggregator
found in `src/container/server.ts` and `src/server.ts`, together with
theorems settling the specification's claims about them.

Environment variables and JSON body fields are modelled as `Option String`
(`none` = absent / `undefined`); JavaScript truthiness of such a value is
`truthy` below (absent and the empty string are falsy, everything else truthy).
-/

namespace Gateway

/-- JavaScript truthiness of an optional string: `undefined` and `""` are
falsy, every other string is truthy. -/
def truthy : Option String → Bool
  | none => false
  | some s => s != ""

theorem truthy_some (s : String) : truthy (some s) = true ↔ s ≠ "" := by
  simp [truthy]

theorem truthy_getD (o : Option String) : truthy (some (o.getD "")) = truthy o := by
  cases o <;> simp [truthy]

/-- JavaScript `a || d` for an optional string `a` and a (non-empty) literal
default `d`: the default is taken when `a` is absent or empty. -/
def jsOr (o : Option String) (d : String) : String :=
  match o with
  | none => d
  | some s => if s = "" then d else s

/-- Value of a list of decimal digit characters, most significant first. -/
def digitsVal (l : List Char) : Nat :=
  l.foldl (fun a c => a * 10 + (c.toNat - 48)) 0

/-- Maximal leading run of decimal digits of a character list. -/
def leadingDigits : List Char → List Char
  | [] => []
  | c :: cs => if c.isDigit then c :: leadingDigits cs else []

/-- Leading whitespace removed from a character list. -/
def dropLeadingWs : List Char → List Char
  | [] => []
  | c :: cs => if c.isWhitespace then dropLeadingWs cs else c :: cs

/-- Whitespace removed from both ends of a character list. -/
def trimWsChars (l : List Char) : List Char :=
  (dropLeadingWs (dropLeadingWs l).reverse).reverse

/-- `parseInt` body after whitespace stripping: optional sign followed by a
maximal digit run; `none` models `NaN` (no digits at all). Models base-10
integer inputs (the hexadecimal `0x` auto-detection of JavaScript is outside
the modelled input domain — the expiry strings this program parses are decimal
epoch-millisecond values). -/
def jsParseIntChars : List Char → Option Int
  | [] => none
  | c :: cs =>
    if c = '-' then
      match leadingDigits cs with
      | [] => none
      | ds => some (-(digitsVal ds : Int))
    else if c = '+' then
      match leadingDigits cs with
      | [] => none
      | ds => some (digitsVal ds : Int)
    else
      match leadingDigits (c :: cs) with
      | [] => none
      | ds => some (digitsVal ds : Int)

/-- JavaScript `parseInt(s)`: strip leading whitespace, then parse an optional
sign and a maximal run of decimal digits; `none` models `NaN`. -/
def jsParseInt (s : String) : Option Int :=
  jsParseIntChars (dropLeadingWs s.data)

/-- JavaScript `Number(s)` restricted to the modelled input domain of decimal
integer literals: whitespace-only (including empty) strings give `0`, an
optional sign followed by digits only gives that integer, and anything else
gives `none`, which models `NaN` (fractional, exponent and hexadecimal
literals are outside the modelled domain — this program feeds it
epoch-millisecond strings). -/
def jsNumber (s : String) : Option Int :=
  match trimWsChars s.data with
  | [] => some 0
  | c :: cs =>
      if c = '-' then
        if cs ≠ [] ∧ cs.all Char.isDigit then some (-(digitsVal cs : Int)) else none
      else if c = '+' then
        if cs ≠ [] ∧ cs.all Char.isDigit then some (digitsVal cs : Int) else none
      else
        if (c :: cs).all Char.isDigit then some (digitsVal (c :: cs) : Int) else none

/-! ## Timing-safe comparison and request validation
(`timingSafeEqual` and `validateApiKey` in `src/container/server.ts`). -/

/-- `timingSafeEqual` from `src/container/server.ts`: reject on differing
lengths, otherwise OR together the XORs of the corresponding character codes
and accept exactly when the accumulated result is zero. -/
def timingSafeEqual (a b : String) : Bool :=
  if a.length ≠ b.length then false
  else
    ((a.data.zip b.data).foldl (fun r p => r ||| (p.1.toNat ^^^ p.2.toNat)) 0) == 0

/-- `validateApiKey` from `src/container/server.ts`: when `WORKER_API_KEY` is
falsy the request is allowed (development mode); otherwise a missing or empty
`x-api-key` header is rejected, and a present one is compared with
`timingSafeEqual`. -/
def validateApiKey (workerApiKey provided : Option String) : Bool :=
  if truthy workerApiKey = false then true
  else if truthy provided = false then false
  else timingSafeEqual (provided.getD "") (workerApiKey.getD "")

theorem nat_or_eq_zero (a b : Nat) : a ||| b = 0 ↔ a = 0 ∧ b = 0 := by
  constructor
  · intro h
    have hb : ∀ i, a.testBit i = false ∧ b.testBit i = false := by
      intro i
      have h0 : (a ||| b).testBit i = false := by
        rw [h]; exact Nat.zero_testBit i
      rw [Nat.testBit_lor] at h0
      exact ⟨(Bool.or_eq_false_iff.mp h0).1, (Bool.or_eq_false_iff.mp h0).2⟩
    constructor
    · exact Nat.eq_of_testBit_eq fun i => by rw [(hb i).1, Nat.zero_testBit]
    · exact Nat.eq_of_testBit_eq fun i => by rw [(hb i).2, Nat.zero_testBit]
  · rintro ⟨rfl, rfl⟩; rfl

theorem char_toNat_inj {a b : Char} (h : a.toNat = b.toNat) : a = b := by
  apply Char.eq_of_val_eq
  apply UInt32.eq_of_toBitVec_eq
  exact BitVec.eq_of_toNat_eq h

theorem xorFold_eq_zero (l : List (Char × Char)) (acc : Nat) :
    l.foldl (fun r p => r ||| (p.1.toNat ^^^ p.2.toNat)) acc = 0 ↔
      acc = 0 ∧ ∀ p ∈ l, p.1 = p.2 := by
  induction l generalizing acc with
  | nil => simp
  | cons p l ih =>
    rw [List.foldl_cons, ih]
    constructor
    · rintro ⟨h0, hall⟩
      have := (nat_or_eq_zero _ _).mp h0
      refine ⟨this.1, ?_⟩
      intro q hq
      rcases List.mem_cons.mp hq with hq | hq
      · subst hq
        exact char_toNat_inj (Nat.xor_eq_zero.mp this.2)
      · exact hall q hq
    · rintro ⟨rfl, hall⟩
      have hp : p.1 = p.2 := hall p (List.mem_cons_self p l)
      refine ⟨?_, fun q hq => hall q (List.mem_cons_of_mem p hq)⟩
      rw [hp]
      simp [nat_or_eq_zero]

theorem zip_eq_of_pointwise {l1 l2 : List Char} (hlen : l1.length = l2.length)
    (h : ∀ p ∈ l1.zip l2, p.1 = p.2) : l1 = l2 := by
  induction l1 generalizing l2 with
  | nil => cases l2 with
    | nil => rfl
    | cons b bs => simp at hlen
  | cons a as ih =>
    cases l2 with
    | nil => simp at hlen
    | cons b bs =>
      have hab : a = b := h (a, b) (by simp [List.zip])
      have : as = bs := by
        apply ih (by simpa using hlen)
        intro p hp
        exact h p (by simp [List.zip]; right; simpa [List.zip] using hp)
      rw [hab, this]

theorem mem_zip_self {α : Type} {l : List α} {p : α × α} (hp : p ∈ l.zip l) :
    p.1 = p.2 := by
  induction l with
  | nil => simp [List.zip] at hp
  | cons a as ih =>
    rw [List.zip_cons_cons] at hp
    rcases List.mem_cons.mp hp with hp | hp
    · rw [hp]
    · exact ih hp

theorem timingSafeEqual_iff (a b : String) : timingSafeEqual a b = true ↔ a = b := by
  unfold timingSafeEqual
  by_cases hlen : a.length = b.length
  · rw [if_neg (not_not_intro hlen), beq_iff_eq]
    constructor
    · intro h
      have hz := (xorFold_eq_zero _ _).mp h
      cases a with
      | mk da =>
        cases b with
        | mk db =>
          exact congrArg String.mk (zip_eq_of_pointwise hlen hz.2)
    · rintro rfl
      rw [xorFold_eq_zero]
      exact ⟨rfl, fun p hp => mem_zip_self hp⟩
  · rw [if_pos hlen]
    constructor
    · intro h; exact absurd h Bool.false_ne_true
    · intro h; exact absurd (congrArg String.length h) hlen

/-! ## Auth mode selection and child-environment construction

`executeClaudeCLI` in `src/container/server.ts` builds the child process's
environment from the container's own process environment, and the worker in
`src/server.ts` builds the container's environment from its bound secrets.
Only the variables consulted by those two functions are modelled. -/

/-- The three authentication modes of the spec's Auth Mode Selector. -/
inductive AuthMode
  | subscription
  | apiKey
  | noAuth
deriving DecidableEq, Repr

/-- The environment variables consulted and constructed by the gateway, each
an `Option String` (`none` = variable absent). -/
structure ChildEnv where
  claudeAccessToken : Option String
  claudeRefreshToken : Option String
  claudeExpiresAt : Option String
  anthropicApiKey : Option String
  claudeUseSubscription : Option String
  claudeBypassBalanceCheck : Option String
deriving DecidableEq, Repr

/-- The auth-mode branch taken by `executeClaudeCLI` in
`src/container/server.ts` (lines 119-137): subscription when
`CLAUDE_USE_SUBSCRIPTION === "true"` and both OAuth tokens are truthy,
else API key when `ANTHROPIC_API_KEY` is truthy, else no auth. -/
def containerAuthMode (p : ChildEnv) : AuthMode :=
  if p.claudeUseSubscription = some "true" ∧
      truthy p.claudeAccessToken ∧ truthy p.claudeRefreshToken then
    .subscription
  else if truthy p.anthropicApiKey then
    .apiKey
  else
    .noAuth

/-- The child environment constructed by `executeClaudeCLI` in
`src/container/server.ts` (lines 113-137): spread of the parent environment
with `CLAUDE_BYPASS_BALANCE_CHECK` forced to `"true"`, then per auth-mode
branch: subscription sets `CLAUDE_USE_SUBSCRIPTION="true"`; API-key fallback
sets it to `"false"` and deletes the three OAuth variables; the no-auth branch
only sets the flag to `"false"`. -/
def buildChildEnv (p : ChildEnv) : ChildEnv :=
  let env := { p with claudeBypassBalanceCheck := some "true" }
  if p.claudeUseSubscription = some "true" ∧
      truthy p.claudeAccessToken ∧ truthy p.claudeRefreshToken then
    { env with claudeUseSubscription := some "true" }
  else if truthy p.anthropicApiKey then
    { env with claudeUseSubscription := some "false",
               claudeAccessToken := none,
               claudeRefreshToken := none,
               claudeExpiresAt := none }
  else
    { env with claudeUseSubscription := some "false" }

/-- The worker's OAuth-validity test (`src/server.ts`, line 445 and line 69):
`!!(CLAUDE_ACCESS_TOKEN && CLAUDE_REFRESH_TOKEN && parseInt(CLAUDE_EXPIRES_AT || "0") > Date.now())`.
A `NaN` from `parseInt` compares false. -/
def workerHasOAuth (access refresh expiresAt : Option String) (now : Int) : Bool :=
  truthy access && truthy refresh &&
    (match jsParseInt (jsOr expiresAt "0") with
     | some e => decide (e > now)
     | none => false)

/-- The auth mode the worker's `/query` handler resolves and reports
(`src/server.ts`, lines 443-451 and 488): subscription when the OAuth triple
is valid and unexpired, else API key when `ANTHROPIC_API_KEY` is truthy, else
none (the handler answers 500 in that last case). -/
def workerAuthMode (access refresh expiresAt apiKey : Option String) (now : Int) :
    AuthMode :=
  if workerHasOAuth access refresh expiresAt now then .subscription
  else if truthy apiKey then .apiKey
  else .noAuth

/-- The container environment the worker passes to
`startAndWaitForPorts` (`src/server.ts`, lines 496-511): OAuth variables are
forwarded only while valid (empty strings otherwise), the API key is always
forwarded, and `CLAUDE_USE_SUBSCRIPTION` is `"true"` exactly when the OAuth
triple is valid. Every variable is passed present (possibly as `""`). -/
def workerChildEnv (access refresh expiresAt apiKey : Option String) (now : Int) :
    ChildEnv :=
  let hasOAuth := workerHasOAuth access refresh expiresAt now
  { claudeAccessToken := some (if hasOAuth then access.getD "" else "")
    claudeRefreshToken := some (if hasOAuth then refresh.getD "" else "")
    claudeExpiresAt := some (if hasOAuth then expiresAt.getD "" else "")
    anthropicApiKey := some (apiKey.getD "")
    claudeUseSubscription := some (if hasOAuth then "true" else "false")
    claudeBypassBalanceCheck := some "true" }

/-! ## Credential provisioning (`setupCredentials` in `src/container/server.ts`) -/

/-- The OAuth record `setupCredentials` serializes
(`src/container/server.ts`, lines 75-84). -/
structure OauthRecord where
  accessToken : String
  refreshToken : String
  expiresAt : Int
  scopes : List String
  subscriptionType : String
  rateLimitTier : String
deriving DecidableEq, Repr

/-- The fixed credential-file path of `src/container/server.ts` line 7:
`path.join(HOME, ".claude", ".credentials.json")`. -/
def credentialsPath (home : String) : String :=
  home ++ "/.claude/.credentials.json"

/-- The path including the `process.env.HOME || "/home/node"` default. -/
def credentialsPathOfEnv (home : Option String) : String :=
  credentialsPath (jsOr home "/home/node")

/-- Expiry parsing of `setupCredentials` (`src/container/server.ts`, lines
65-73): a truthy `CLAUDE_EXPIRES_AT` is parsed with `Number` and, when that is
`NaN`, with `Date` parsing (supplied here as the function `parseISODate`,
which stands for the JavaScript runtime's `new Date(s).getTime()`); a falsy
one defaults to one hour (3600000 ms) after the current time. -/
def parseExpiresAt (parseISODate : String → Int) (expiresAt : Option String)
    (now : Int) : Int :=
  if truthy expiresAt then
    match jsNumber (expiresAt.getD "") with
    | some n => n
    | none => parseISODate (expiresAt.getD "")
  else
    now + 3600000

/-- `setupCredentials` from `src/container/server.ts` (lines 55-100), up to
the filesystem write: `none` when either token is falsy (provisioning skipped,
not an error), otherwise the record that is serialized to the credential
file. -/
def setupCredentials (parseISODate : String → Int)
    (accessToken refreshToken expiresAt : Option String) (now : Int) :
    Option OauthRecord :=
  if truthy accessToken = false ∨ truthy refreshToken = false then
    none
  else
    some { accessToken := accessToken.getD ""
           refreshToken := refreshToken.getD ""
           expiresAt := parseExpiresAt parseISODate expiresAt now
           scopes := ["user:inference", "user:profile", "user:sessions:claude_code"]
           subscriptionType := "max"
           rateLimitTier := "default_claude_max_20x" }

/-- Minimal JSON value type used to state what `JSON.stringify` writes. -/
inductive JsonVal
  | str (s : String)
  | num (n : Int)
  | arr (xs : List JsonVal)
  | obj (fields : List (String × JsonVal))
deriving Repr

/-- Top-level keys of a JSON object. -/
def objKeys : JsonVal → List String
  | .obj fs => fs.map fun p => p.1
  | _ => []

/-- Lookup of a key in a JSON object. -/
def objGet (j : JsonVal) (k : String) : Option JsonVal :=
  match j with
  | .obj fs => (fs.find? fun p => p.1 == k).map fun p => p.2
  | _ => none

/-- The JSON object `setupCredentials` writes (`src/container/server.ts`,
lines 75-84): a single top-level key `claudeAiOauth` holding the six record
fields in source order. -/
def credentialsJson (rec : OauthRecord) : JsonVal :=
  .obj [("claudeAiOauth", .obj
    [("accessToken", .str rec.accessToken),
     ("refreshToken", .str rec.refreshToken),
     ("expiresAt", .num rec.expiresAt),
     ("scopes", .arr (rec.scopes.map .str)),
     ("subscriptionType", .str rec.subscriptionType),
     ("rateLimitTier", .str rec.rateLimitTier)])]

/-! ## The `/run` request handler (`src/container/server.ts`, lines 247-296) -/

/-- Outcome of the `/run` handler's validation phase. -/
inductive RunDecision
  | reject400
  | reject500NoAuth
  | spawnProcess (prompt : String)
deriving DecidableEq, Repr

/-- The `/run` handler's decision sequence after body parsing
(`src/container/server.ts`, lines 262-282): a falsy `prompt` answers 400
before anything else; then a missing `CLAUDE_ACCESS_TOKEN` and
`ANTHROPIC_API_KEY` answers 500; otherwise `executeClaudeCLI(prompt)` is
called, i.e. a subprocess is spawned with the prompt verbatim. -/
def runHandler (prompt accessToken apiKey : Option String) : RunDecision :=
  if truthy prompt = false then
    .reject400
  else if truthy accessToken = false ∧ truthy apiKey = false then
    .reject500NoAuth
  else
    .spawnProcess (prompt.getD "")

/-! ## Execution lifecycle (`executeClaudeCLI` in `src/container/server.ts`)

The promise body of `executeClaudeCLI` (lines 153-231) is modelled as a state
machine driven by the events the Node runtime can deliver: stdout/stderr data
chunks, the two timer firings, the spawn-error event and the close event.
The promise's settle-once semantics is the `settle` helper: a second
resolution attempt leaves the first result in place. A `clearTimeout`-ed or
already-fired timer is inactive and its firing event is a no-op. -/

/-- The execution's final outcome as the spec's Result Aggregator classifies
it. -/
inductive ExecResult
  | success (text : String)
  | failure (exitCode : Option Int) (excerpt : String)
  | timeout (elapsedMs : Nat)
  | spawnError (message : String)
deriving DecidableEq, Repr

/-- The close handler of `executeClaudeCLI` (`src/container/server.ts`, lines
191-201): exit code 0 resolves with the trimmed stdout; any other code
rejects carrying the code and `stderr || stdout`. -/
def closeOutcome (code : Option Int) (stdoutBuf stderrBuf : String) : ExecResult :=
  if code = some 0 then
    .success stdoutBuf.trim
  else
    .failure code (if stderrBuf = "" then stdoutBuf else stderrBuf)

/-- Events the runtime can deliver to the handlers registered by
`executeClaudeCLI`. `hardFire` carries the elapsed time measured when the
hard-deadline timer runs. -/
inductive Event
  | dataOut (s : String)
  | dataErr (s : String)
  | warnFire
  | hardFire (elapsedMs : Nat)
  | errorEv (message : String)
  | closeEv (code : Option Int)
deriving DecidableEq, Repr

/-- Mutable state of one execution: the two output buffers, whether each
timer is still scheduled, how many kill signals have been sent, and the
settled result of the promise (`none` while pending). -/
structure ExecState where
  stdoutBuf : String
  stderrBuf : String
  warnActive : Bool
  hardActive : Bool
  killCount : Nat
  result : Option ExecResult
deriving DecidableEq, Repr

/-- Settling a promise: the first result sticks, later attempts are no-ops. -/
def settle (st : ExecState) (r : ExecResult) : ExecState :=
  match st.result with
  | some _ => st
  | none => { st with result := some r }

/-- One event dispatch, mirroring the handlers of `executeClaudeCLI`:
data events append to the buffers (lines 172-183); the warning timer only
logs (lines 209-214); the hard-deadline timer clears the warning timer, sends
`SIGKILL` and rejects with a timeout (lines 217-225); the error event rejects
with a spawn error and touches no timer (lines 185-189); the close event
resolves or rejects by exit code and then clears both timers (lines 191-201
and 227-230). -/
def step (st : ExecState) (e : Event) : ExecState :=
  match e with
  | .dataOut s => { st with stdoutBuf := st.stdoutBuf ++ s }
  | .dataErr s => { st with stderrBuf := st.stderrBuf ++ s }
  | .warnFire =>
    if st.warnActive then { st with warnActive := false } else st
  | .hardFire t =>
    if st.hardActive then
      settle { st with hardActive := false, warnActive := false,
                       killCount := st.killCount + 1 } (.timeout t)
    else st
  | .errorEv m =>
    settle st (.spawnError ("Failed to spawn Claude CLI: " ++ m))
  | .closeEv c =>
    let st1 := settle st (closeOutcome c st.stdoutBuf st.stderrBuf)
    { st1 with warnActive := false, hardActive := false }

/-- State right after the synchronous body of `executeClaudeCLI` ran: empty
buffers, both timers scheduled, no kill sent, promise pending. -/
def initState : ExecState :=
  { stdoutBuf := "", stderrBuf := "", warnActive := true, hardActive := true,
    killCount := 0, result := none }

/-- The state after the runtime delivered the given events in order. -/
def runEvents (evs : List Event) : ExecState :=
  evs.foldl step initState

/-- Terminal events in the sense of the spec: the close event, the
spawn-error event and the hard-deadline firing. -/
def isTerminal : Event → Bool
  | .closeEv _ => true
  | .errorEv _ => true
  | .hardFire _ => true
  | _ => false

/-! ## Launch ordering (`executeClaudeCLI`, lines 153-230)

The synchronous body of `executeClaudeCLI` runs to completion before the
single-threaded runtime delivers any stream or timer event; the trace of one
execution is therefore the body's steps in source order followed by the
delivered events. -/

/-- One observable step of an execution trace. -/
inductive LaunchStep
  | spawnCall
  | stdinClosed
  | handlerRegistered (name : String)
  | timerScheduled (name : String)
  | outputProcessed (isStderr : Bool) (data : String)
  | otherEvent (e : Event)
deriving DecidableEq, Repr

/-- The synchronous body of `executeClaudeCLI` in source order: `spawn` (line
153), `claude.stdin.end()` (line 168), the stdout/stderr/error/close/exit
handler registrations (lines 172-206), the warning and timeout timers (lines
209-225), and the second close listener (line 227). -/
def setupSteps : List LaunchStep :=
  [.spawnCall, .stdinClosed,
   .handlerRegistered "stdout-data", .handlerRegistered "stderr-data",
   .handlerRegistered "error", .handlerRegistered "close",
   .handlerRegistered "exit",
   .timerScheduled "warning", .timerScheduled "timeout",
   .handlerRegistered "close-cleanup"]

/-- The trace step an event's processing contributes. -/
def eventStep : Event → LaunchStep
  | .dataOut s => .outputProcessed false s
  | .dataErr s => .outputProcessed true s
  | e => .otherEvent e

/-- Full trace of one execution: the synchronous setup, then the delivered
events in delivery order. -/
def executionTrace (evs : List Event) : List LaunchStep :=
  setupSteps ++ evs.map eventStep

/-! ## Lifecycle lemmas -/

theorem step_nonterminal (st : ExecState) (e : Event) (h : isTerminal e = false) :
    (step st e).result = st.result ∧ (step st e).killCount = st.killCount ∧
      (step st e).hardActive = st.hardActive := by
  cases e with
  | dataOut s => simp [step]
  | dataErr s => simp [step]
  | warnFire =>
    by_cases hw : st.warnActive <;> simp [step, hw]
  | hardFire t => simp [isTerminal] at h
  | errorEv m => simp [isTerminal] at h
  | closeEv c => simp [isTerminal] at h

theorem foldl_nonterminal (evs : List Event) (st : ExecState)
    (h : ∀ e ∈ evs, isTerminal e = false) :
    (evs.foldl step st).result = st.result ∧
      (evs.foldl step st).killCount = st.killCount ∧
      (evs.foldl step st).hardActive = st.hardActive := by
  induction evs generalizing st with
  | nil => exact ⟨rfl, rfl, rfl⟩
  | cons e evs ih =>
    have he : isTerminal e = false := h e (List.mem_cons_self e evs)
    have hrest : ∀ x ∈ evs, isTerminal x = false :=
      fun x hx => h x (List.mem_cons_of_mem e hx)
    have hstep := step_nonterminal st e he
    have := ih (step st e) hrest
    rw [List.foldl_cons]
    exact ⟨this.1.trans hstep.1, this.2.1.trans hstep.2.1, this.2.2.trans hstep.2.2⟩

theorem step_settled (st : ExecState) (e : Event) (r : ExecResult)
    (h : st.result = some r) : (step st e).result = some r := by
  cases e with
  | dataOut s => simpa [step] using h
  | dataErr s => simpa [step] using h
  | warnFire => by_cases hw : st.warnActive <;> simpa [step, hw] using h
  | hardFire t =>
    by_cases hh : st.hardActive <;> simp [step, hh, settle, h]
  | errorEv m => simp [step, settle, h]
  | closeEv c => simp [step, settle, h]

theorem foldl_settled (evs : List Event) (st : ExecState) (r : ExecResult)
    (h : st.result = some r) : (evs.foldl step st).result = some r := by
  induction evs generalizing st with
  | nil => exact h
  | cons e evs ih =>
    rw [List.foldl_cons]
    exact ih (step st e) (step_settled st e r h)

theorem step_hardInactive (st : ExecState) (e : Event) (h : st.hardActive = false) :
    (step st e).hardActive = false ∧ (step st e).killCount = st.killCount := by
  cases e with
  | dataOut s => simp [step, h]
  | dataErr s => simp [step, h]
  | warnFire => by_cases hw : st.warnActive <;> simp [step, hw, h]
  | hardFire t => simp [step, h]
  | errorEv m =>
    unfold step settle
    cases st.result <;> simp [h]
  | closeEv c =>
    unfold step settle
    cases st.result <;> simp [h]

theorem foldl_hardInactive (evs : List Event) (st : ExecState)
    (h : st.hardActive = false) :
    (evs.foldl step st).hardActive = false ∧
      (evs.foldl step st).killCount = st.killCount := by
  induction evs generalizing st with
  | nil => exact ⟨h, rfl⟩
  | cons e evs ih =>
    rw [List.foldl_cons]
    have hstep := step_hardInactive st e h
    have := ih (step st e) hstep.1
    exact ⟨this.1, this.2.trans hstep.2⟩

/-! ## Claim theorems -/

/-- C4: the Result Aggregator maps every terminal close event
deterministically — exit code 0 yields Success with the trimmed captured
stdout, and any non-zero exit code yields Failure carrying that exit code
and, as the stderr excerpt, the captured stderr when non-empty and otherwise
the captured stdout. -/
theorem resultAggregator_close (stdoutBuf stderrBuf : String) (n : Int)
    (hn : n ≠ 0) :
    closeOutcome (some 0) stdoutBuf stderrBuf = .success stdoutBuf.trim ∧
    closeOutcome (some n) stdoutBuf stderrBuf =
      .failure (some n) (if stderrBuf = "" then stdoutBuf else stderrBuf) := by
  constructor
  · simp [closeOutcome]
  · simp [closeOutcome, hn]

theorem resultAggregator_close_witness :
    closeOutcome (some 1) "" "rate limited" =
      ExecResult.failure (some 1) "rate limited" := by
  have h := (resultAggregator_close "" "rate limited" 1 (by decide)).2
  simpa using h

/-- C5: when the hard deadline fires with no terminal event having occurred,
the monitor sends exactly one kill signal (and never another one later),
cancels the pending warning timer and settles the execution as a timeout
carrying the elapsed time; the warning timer's firing changes neither the
result nor the buffers nor the kill count in any state. -/
theorem lifecycle_hardDeadline (pre : List Event) (t : Nat)
    (hpre : ∀ e ∈ pre, isTerminal e = false) :
    (runEvents (pre ++ [Event.hardFire t])).killCount = 1 ∧
    (runEvents (pre ++ [Event.hardFire t])).warnActive = false ∧
    (runEvents (pre ++ [Event.hardFire t])).result = some (.timeout t) ∧
    (∀ more, (runEvents (pre ++ Event.hardFire t :: more)).killCount = 1) ∧
    (∀ st : ExecState, (step st .warnFire).result = st.result ∧
      (step st .warnFire).stdoutBuf = st.stdoutBuf ∧
      (step st .warnFire).stderrBuf = st.stderrBuf ∧
      (step st .warnFire).killCount = st.killCount) := by
  have hpre' := foldl_nonterminal pre initState hpre
  have hres : (runEvents pre).result = none := by
    simpa [runEvents, initState] using hpre'.1
  have hkill : (runEvents pre).killCount = 0 := by
    simpa [runEvents, initState] using hpre'.2.1
  have hhard : (runEvents pre).hardActive = true := by
    simpa [runEvents, initState] using hpre'.2.2
  have hstep : runEvents (pre ++ [Event.hardFire t]) =
      step (runEvents pre) (Event.hardFire t) := by
    simp [runEvents, List.foldl_append]
  have hk1 : (step (runEvents pre) (Event.hardFire t)).killCount = 1 := by
    unfold step settle
    simp [hhard, hres, hkill]
  have hw1 : (step (runEvents pre) (Event.hardFire t)).warnActive = false := by
    unfold step settle
    simp [hhard, hres]
  have hr1 : (step (runEvents pre) (Event.hardFire t)).result =
      some (.timeout t) := by
    unfold step settle
    simp [hhard, hres]
  have hh1 : (step (runEvents pre) (Event.hardFire t)).hardActive = false := by
    unfold step settle
    simp [hhard, hres]
  refine ⟨?_, ?_, ?_, ?_, ?_⟩
  · rw [hstep]; exact hk1
  · rw [hstep]; exact hw1
  · rw [hstep]; exact hr1
  · intro more
    have hsplit : runEvents (pre ++ Event.hardFire t :: more) =
        more.foldl step (step (runEvents pre) (Event.hardFire t)) := by
      simp [runEvents, List.foldl_append, List.foldl_cons]
    rw [hsplit]
    have := foldl_hardInactive more (step (runEvents pre) (Event.hardFire t)) hh1
    exact this.2.trans hk1
  · intro st
    by_cases hw : st.warnActive <;> simp [step, hw]

theorem lifecycle_hardDeadline_witness :
    (runEvents [Event.dataOut "partial", Event.hardFire 300000]).killCount = 1 ∧
    (runEvents [Event.dataOut "partial", Event.hardFire 300000]).result =
      some (ExecResult.timeout 300000) := by
  have h := lifecycle_hardDeadline [Event.dataOut "partial"] 300000 (by decide)
  exact ⟨h.1, h.2.2.1⟩

/-- C6 counterexample: after the spawn-error event settles the execution,
both timers are still pending — the error handler of `executeClaudeCLI`
clears no timer — and the hard-deadline timer later fires and sends a kill
signal, contradicting the claim that both timers are cancelled on the first
terminal event and that no pending timer remains after a spawn error. -/
theorem lifecycle_spawnError_timer_counterexample :
    (runEvents [Event.errorEv "spawn claude ENOENT"]).result =
      some (.spawnError "Failed to spawn Claude CLI: spawn claude ENOENT") ∧
    (runEvents [Event.errorEv "spawn claude ENOENT"]).hardActive = true ∧
    (runEvents [Event.errorEv "spawn claude ENOENT"]).warnActive = true ∧
    (runEvents [Event.errorEv "spawn claude ENOENT",
      Event.hardFire 300000]).killCount = 1 :=
  ⟨rfl, rfl, rfl, rfl⟩

/-- C6 amended: the close event cancels both timers whenever it fires — in
particular when it is the first terminal event — and afterwards no later
event ever sends a kill signal; a close always leaves the execution settled;
and once an execution settles, every later event leaves the result unchanged,
so exactly one Execution Result is produced per request. After a spawn error,
however, the timers stay pending (see the counterexample). -/
theorem lifecycle_resolution (evs more : List Event) (c : Option Int) :
    (∀ r, (runEvents evs).result = some r →
      (runEvents (evs ++ more)).result = some r) ∧
    (runEvents (evs ++ [Event.closeEv c])).warnActive = false ∧
    (runEvents (evs ++ [Event.closeEv c])).hardActive = false ∧
    (runEvents (evs ++ [Event.closeEv c])).result.isSome = true ∧
    (runEvents (evs ++ Event.closeEv c :: more)).killCount =
      (runEvents (evs ++ [Event.closeEv c])).killCount := by
  have hone : runEvents (evs ++ [Event.closeEv c]) =
      step (runEvents evs) (Event.closeEv c) := by
    simp [runEvents, List.foldl_append]
  refine ⟨?_, ?_, ?_, ?_, ?_⟩
  · intro r h
    have : runEvents (evs ++ more) = more.foldl step (runEvents evs) := by
      simp [runEvents, List.foldl_append]
    rw [this]
    exact foldl_settled more (runEvents evs) r h
  · rw [hone]; rfl
  · rw [hone]; rfl
  · rw [hone]
    unfold step settle
    cases h : (runEvents evs).result <;> simp [h]
  · have h1 : runEvents (evs ++ Event.closeEv c :: more) =
        more.foldl step (step (runEvents evs) (Event.closeEv c)) := by
      simp [runEvents, List.foldl_append, List.foldl_cons]
    rw [h1, hone]
    exact (foldl_hardInactive more (step (runEvents evs) (Event.closeEv c)) rfl).2

theorem lifecycle_resolution_witness :
    (runEvents ([Event.dataErr "boom", Event.closeEv (some 1)] ++
      [Event.hardFire 300001])).result =
      some (ExecResult.failure (some 1) "boom") ∧
    (runEvents ([Event.dataOut "4"] ++ [Event.closeEv (some 0)])).warnActive
      = false ∧
    (runEvents ([Event.dataOut "4"] ++ [Event.closeEv (some 0)])).hardActive
      = false ∧
    (runEvents ([Event.dataOut "4"] ++
      [Event.closeEv (some 0)])).result.isSome = true ∧
    (runEvents ([Event.dataOut "4"] ++ Event.closeEv (some 0) ::
      [Event.hardFire 300000])).killCount =
      (runEvents ([Event.dataOut "4"] ++
        [Event.closeEv (some 0)])).killCount := by
  have h1 := lifecycle_resolution [Event.dataErr "boom", Event.closeEv (some 1)]
    [Event.hardFire 300001] (some 7)
  have h2 := lifecycle_resolution [Event.dataOut "4"] [Event.hardFire 300000]
    (some 0)
  exact ⟨h1.1 (ExecResult.failure (some 1) "boom") rfl,
    h2.2.1, h2.2.2.1, h2.2.2.2.1, h2.2.2.2.2⟩

/-- A parent environment with a valid-looking caller flag, both OAuth tokens
and an API key present, used to exhibit C1's failure. -/
def subEnvWithKey : ChildEnv :=
  { claudeAccessToken := some "oauth-token"
    claudeRefreshToken := some "oauth-refresh"
    claudeExpiresAt := some "1764500000000"
    anthropicApiKey := some "sk-ant-key"
    claudeUseSubscription := some "true"
    claudeBypassBalanceCheck := none }

/-- A parent environment that resolves to API-key mode. -/
def apiKeyEnv : ChildEnv :=
  { claudeAccessToken := some "stale-token"
    claudeRefreshToken := none
    claudeExpiresAt := some "5"
    anthropicApiKey := some "sk-ant-key"
    claudeUseSubscription := some "false"
    claudeBypassBalanceCheck := none }

/-- C1 counterexample: with the subscription branch taken, the constructed
child environment still contains `ANTHROPIC_API_KEY` — the subscription
branch of `executeClaudeCLI` strips nothing, so the claimed mutual
exclusivity fails in the subscription direction. -/
theorem buildChildEnv_subscription_keeps_apiKey :
    containerAuthMode subEnvWithKey = AuthMode.subscription ∧
    (buildChildEnv subEnvWithKey).anthropicApiKey = some "sk-ant-key" ∧
    truthy (buildChildEnv subEnvWithKey).anthropicApiKey = true := by
  refine ⟨by decide, by decide, by decide⟩

/-- C1 amended: the exclusivity holds only in the API-key direction — when
the resolved mode is api_key the three subscription variables are deleted
from the child environment, while in subscription mode the API-key variable
is passed through from the parent environment unchanged. -/
theorem buildChildEnv_apiKey_strips_oauth (p : ChildEnv) :
    (containerAuthMode p = AuthMode.apiKey →
      (buildChildEnv p).claudeAccessToken = none ∧
      (buildChildEnv p).claudeRefreshToken = none ∧
      (buildChildEnv p).claudeExpiresAt = none) ∧
    (containerAuthMode p = AuthMode.subscription →
      (buildChildEnv p).anthropicApiKey = p.anthropicApiKey) := by
  unfold containerAuthMode buildChildEnv
  by_cases h1 : p.claudeUseSubscription = some "true" ∧
      truthy p.claudeAccessToken ∧ truthy p.claudeRefreshToken
  · simp [h1]
  · by_cases h2 : truthy p.anthropicApiKey <;> simp [h1, h2]

theorem buildChildEnv_apiKey_strips_oauth_witness :
    (buildChildEnv apiKeyEnv).claudeAccessToken = none ∧
    (buildChildEnv subEnvWithKey).anthropicApiKey = subEnvWithKey.anthropicApiKey := by
  exact ⟨((buildChildEnv_apiKey_strips_oauth apiKeyEnv).1 (by decide)).1,
    (buildChildEnv_apiKey_strips_oauth subEnvWithKey).2 (by decide)⟩

/-- C2 counterexample: a whitespace-only prompt is truthy in JavaScript, so
the `/run` handler does not reject it — it reaches the spawn call with the
prompt passed verbatim, contradicting the claim that whitespace-only prompts
are rejected before any subprocess creation. -/
theorem runHandler_whitespace_prompt_spawns :
    (" ") ≠ "" ∧ (" ").data.all Char.isWhitespace = true ∧
    runHandler (some " ") (some "oauth-token") none = RunDecision.spawnProcess " " := by
  refine ⟨by decide, by decide, by decide⟩

/-- C2 amended: the handler rejects with 400 exactly the requests whose
prompt is JavaScript-falsy (absent or the empty string) and spawns no
subprocess for them; prompts that are non-empty without trimming — including
whitespace-only ones — are not rejected by this check. -/
theorem runHandler_prompt_validation (prompt accessToken apiKey : Option String) :
    (runHandler prompt accessToken apiKey = RunDecision.reject400 ↔
      truthy prompt = false) ∧
    (truthy prompt = false →
      ∀ s, runHandler prompt accessToken apiKey ≠ RunDecision.spawnProcess s) := by
  unfold runHandler
  by_cases h : truthy prompt = false
  · simp [h]
  · by_cases h2 : truthy accessToken = false ∧ truthy apiKey = false <;>
      simp [h, h2]

theorem runHandler_prompt_validation_witness :
    runHandler none (some "tok") none = RunDecision.reject400 ∧
    runHandler none (some "tok") none ≠ RunDecision.spawnProcess "" := by
  have h := runHandler_prompt_validation none (some "tok") none
  exact ⟨h.1.mpr rfl, h.2 rfl ""⟩

/-- C3: the worker-side Auth Mode Selector returns subscription exactly when
both OAuth tokens are truthy and the parsed expiry is strictly greater than
the current time, otherwise API-key mode when the static key is truthy and
none when neither holds; and the container's auth-mode branch, fed the
environment the worker constructs (its use-subscription flag included),
resolves to exactly the worker's mode — so an expired subscription never
proceeds in subscription mode. -/
theorem authModeSelector_spec (access refresh expiresAt apiKey : Option String)
    (now e : Int) (he : jsParseInt (jsOr expiresAt "0") = some e) :
    (workerAuthMode access refresh expiresAt apiKey now = AuthMode.subscription ↔
      (truthy access = true ∧ truthy refresh = true ∧ e > now)) ∧
    (workerAuthMode access refresh expiresAt apiKey now ≠ AuthMode.subscription →
      workerAuthMode access refresh expiresAt apiKey now =
        (if truthy apiKey then AuthMode.apiKey else AuthMode.noAuth)) ∧
    (containerAuthMode (workerChildEnv access refresh expiresAt apiKey now) =
      workerAuthMode access refresh expiresAt apiKey now) := by
  have hoauth : workerHasOAuth access refresh expiresAt now =
      (truthy access && truthy refresh && decide (e > now)) := by
    unfold workerHasOAuth
    rw [he]
  have hsplit : workerHasOAuth access refresh expiresAt now = true ↔
      (truthy access = true ∧ truthy refresh = true ∧ e > now) := by
    rw [hoauth]
    simp only [Bool.and_eq_true, decide_eq_true_eq]
    exact ⟨fun h => ⟨h.1.1, h.1.2, h.2⟩, fun h => ⟨⟨h.1, h.2.1⟩, h.2.2⟩⟩
  refine ⟨?_, ?_, ?_⟩
  · unfold workerAuthMode
    by_cases hc : workerHasOAuth access refresh expiresAt now = true
    · rw [if_pos hc]
      exact iff_of_true rfl (hsplit.mp hc)
    · rw [if_neg hc]
      have hrhs : ¬(truthy access = true ∧ truthy refresh = true ∧ e > now) :=
        fun h => hc (hsplit.mpr h)
      by_cases hak : truthy apiKey = true
      · rw [if_pos hak]
        exact iff_of_false (by simp) hrhs
      · rw [if_neg hak]
        exact iff_of_false (by simp) hrhs
  · intro hsub
    unfold workerAuthMode at hsub ⊢
    by_cases hc : workerHasOAuth access refresh expiresAt now = true
    · rw [if_pos hc] at hsub
      exact absurd rfl hsub
    · rw [if_neg hc]
  · unfold workerAuthMode containerAuthMode workerChildEnv
    by_cases hc : workerHasOAuth access refresh expiresAt now = true
    · have h3 := hsplit.mp hc
      simp [hc, truthy_getD, h3.1, h3.2.1]
    · have hc' : workerHasOAuth access refresh expiresAt now = false :=
        Bool.eq_false_iff.mpr (fun hb => hc hb)
      by_cases hak : truthy apiKey = true
      · simp [hc', truthy_getD, hak]
      · have hak' : truthy apiKey = false :=
          Bool.eq_false_iff.mpr (fun hb => hak hb)
        simp [hc', truthy_getD, hak']

theorem authModeSelector_spec_witness :
    workerAuthMode (some "a") (some "r") (some "1000") (some "k") 999 =
      AuthMode.subscription ∧
    containerAuthMode (workerChildEnv (some "a") (some "r") (some "1000")
      (some "k") 999) =
      workerAuthMode (some "a") (some "r") (some "1000") (some "k") 999 := by
  have h := authModeSelector_spec (some "a") (some "r") (some "1000") (some "k")
    999 1000 (by decide)
  exact ⟨h.1.mpr ⟨rfl, rfl, by decide⟩, h.2.2⟩

/-- C7: in every execution trace the child's input stream is closed at a
position strictly before any output chunk is processed — the stdin close is
the second synchronous setup step, and output events are only delivered after
the whole synchronous body ran. -/
theorem stdin_closed_before_output (evs : List Event) (i : Nat) (b : Bool)
    (d : String)
    (h : (executionTrace evs).get? i = some (.outputProcessed b d)) :
    ∃ j, j < i ∧ (executionTrace evs).get? j = some LaunchStep.stdinClosed := by
  refine ⟨1, ?_, ?_⟩
  · match i, h with
    | 0, h => simp [executionTrace, setupSteps] at h
    | 1, h => simp [executionTrace, setupSteps] at h
    | (n + 2), _ => omega
  · rfl

theorem stdin_closed_before_output_witness :
    ∃ j, j < 10 ∧
      (executionTrace [Event.dataOut "4"]).get? j = some LaunchStep.stdinClosed :=
  stdin_closed_before_output [Event.dataOut "4"] 10 false "4" (by rfl)

/-- C8: the Credential Provisioner skips provisioning entirely when either
token is falsy; defaults the expiry to exactly one hour (3600000 ms) after
the current time when the expiry input is absent; parses a numeric expiry
string as an epoch-millisecond number; and parses a non-numeric one with the
runtime's date parser. -/
theorem setupCredentials_spec (parseISODate : String → Int)
    (a r : Option String) (s : String) (now n : Int) :
    ((truthy a = false ∨ truthy r = false) →
      ∀ e, setupCredentials parseISODate a r e now = none) ∧
    (truthy a = true → truthy r = true →
      (setupCredentials parseISODate a r none now).map (fun rec => rec.expiresAt) =
        some (now + 3600000)) ∧
    (truthy a = true → truthy r = true → s ≠ "" → jsNumber s = some n →
      (setupCredentials parseISODate a r (some s) now).map
        (fun rec => rec.expiresAt) = some n) ∧
    (truthy a = true → truthy r = true → s ≠ "" → jsNumber s = none →
      (setupCredentials parseISODate a r (some s) now).map
        (fun rec => rec.expiresAt) = some (parseISODate s)) := by
  refine ⟨?_, ?_, ?_, ?_⟩
  · intro h e
    unfold setupCredentials
    rcases h with h | h <;> simp [h]
  · intro ha hr
    unfold setupCredentials
    rw [if_neg (by simp [ha, hr])]
    unfold parseExpiresAt
    rw [if_neg (by simp [truthy])]
    rfl
  · intro ha hr hs hn
    unfold setupCredentials
    rw [if_neg (by simp [ha, hr])]
    unfold parseExpiresAt
    rw [if_pos (by simp [truthy, hs])]
    have hg : (some s).getD "" = s := rfl
    rw [hg, hn]
    rfl
  · intro ha hr hs hn
    unfold setupCredentials
    rw [if_neg (by simp [ha, hr])]
    unfold parseExpiresAt
    rw [if_pos (by simp [truthy, hs])]
    have hg : (some s).getD "" = s := rfl
    rw [hg, hn]
    rfl

theorem setupCredentials_spec_witness :
    setupCredentials (fun _ => 7) (some "a") none none 10 = none ∧
    (setupCredentials (fun _ => 7) (some "a") (some "r") none 10).map
      (fun rec => rec.expiresAt) = some ((10 : Int) + 3600000) ∧
    (setupCredentials (fun _ => 7) (some "a") (some "r") (some "123") 10).map
      (fun rec => rec.expiresAt) = some 123 ∧
    (setupCredentials (fun _ => 7) (some "a") (some "r") (some "2025-11-30")
      10).map (fun rec => rec.expiresAt) = some 7 := by
  have h1 := setupCredentials_spec (fun _ => 7) (some "a") none "123" 10 123
  have h2 := setupCredentials_spec (fun _ => 7) (some "a") (some "r") "123" 10 123
  have h3 := setupCredentials_spec (fun _ => 7) (some "a") (some "r")
    "2025-11-30" 10 0
  exact ⟨h1.1 (Or.inr rfl) none, h2.2.1 rfl rfl,
    h2.2.2.1 rfl rfl (by decide) (by decide),
    h3.2.2.2 rfl rfl (by decide) (by decide)⟩

/-- C9 counterexample: the credential file is written to
`.claude/.credentials.json` under the home directory, not to
`.credentials-store/credentials.json`; its single top-level key is
`claudeAiOauth`, not `oauth`; and its field names are `expiresAt` and
`subscriptionType` where the claim says `expiresAtEpochMs` and
`subscriptionTier`. -/
theorem credentialsFile_counterexample :
    credentialsPathOfEnv (some "/home/node") =
      "/home/node/.claude/.credentials.json" ∧
    credentialsPathOfEnv (some "/home/node") ≠
      "/home/node/.credentials-store/credentials.json" ∧
    (setupCredentials (fun _ => 0) (some "at") (some "rt") (some "5") 0).map
      (fun rec => objKeys (credentialsJson rec)) = some ["claudeAiOauth"] ∧
    (setupCredentials (fun _ => 0) (some "at") (some "rt") (some "5") 0).map
      (fun rec => (objGet (credentialsJson rec) "claudeAiOauth").map objKeys) =
      some (some ["accessToken", "refreshToken", "expiresAt", "scopes",
        "subscriptionType", "rateLimitTier"]) ∧
    ["accessToken", "refreshToken", "expiresAt", "scopes", "subscriptionType",
      "rateLimitTier"] ≠
      ["accessToken", "refreshToken", "expiresAtEpochMs", "scopes",
        "subscriptionTier", "rateLimitTier"] := by
  refine ⟨rfl, by decide, rfl, rfl, by decide⟩

/-- C9 amended: the Credential Record is written as JSON to the fixed path
`.claude/.credentials.json` under the runtime home directory, with the single
top-level key `claudeAiOauth` containing the fields `accessToken`,
`refreshToken`, `expiresAt`, `scopes`, `subscriptionType` and
`rateLimitTier`. -/
theorem credentialsFile_amended (home : String) (rec : OauthRecord) :
    credentialsPath home = home ++ "/.claude/.credentials.json" ∧
    objKeys (credentialsJson rec) = ["claudeAiOauth"] ∧
    (objGet (credentialsJson rec) "claudeAiOauth").map objKeys =
      some ["accessToken", "refreshToken", "expiresAt", "scopes",
        "subscriptionType", "rateLimitTier"] :=
  ⟨rfl, rfl, rfl⟩

/-- C10: when `WORKER_API_KEY` is unset or empty, `validateApiKey` accepts
every request whatever the `x-api-key` header holds; when it is set
non-empty, a request is accepted exactly when the header is present and
equals it character for character. -/
theorem validateApiKey_spec :
    (∀ h, validateApiKey none h = true) ∧
    (∀ h, validateApiKey (some "") h = true) ∧
    (∀ k h, k ≠ "" → (validateApiKey (some k) h = true ↔ h = some k)) := by
  refine ⟨fun h => rfl, fun h => rfl, ?_⟩
  intro k h hk
  cases h with
  | none => simp [validateApiKey, truthy, hk]
  | some p =>
    by_cases hp : p = ""
    · subst hp
      simp [validateApiKey, truthy, hk]
      exact fun habs => hk habs.symm
    · simp [validateApiKey, truthy, hk, hp, timingSafeEqual_iff]

theorem validateApiKey_spec_witness :
    validateApiKey (some "secret-key") (some "secret-key") = true :=
  (validateApiKey_spec.2.2 "secret-key" (some "secret-key") (by decide)).mpr rfl

end Gateway
